import Mathlib

/-!
Shallow embedding of the chat orchestration core of an education-support
chatbot: `QueryHandler.handle_query`, `QueryHandler.analyze_sentiment`,
`HumanAgentHandler.transfer_to_human`, `MessageAnalyzer`,
`SentimentAnalyzer` and `ChatHistory`, together with theorems checking the
natural-language specification of the system against this embedding.

External collaborators (the document store, the VADER lexicon, LLM
clients, the websocket broadcaster) are modelled as oracle fields of an
`Env` record; `none` (or a `false` success flag) from an oracle stands for
the collaborator raising an exception.  Mutable state (the active-session
registry, the durable turn collection, the in-memory turn list of the
session's `ChatHistory`, and a logical clock supplying timestamps) is an
explicit `World` record threaded through the functions.  A Python method
that can raise is embedded as a function returning `Except Unit _` (or
`Option _`) paired with the state it leaves behind, because mutations made
before a raise persist in Python.  Scores and thresholds are rationals.
-/

/-- Enum `MessageRole` from `models/human_agent.py`. -/
inductive MessageRole where
  | user
  | bot
  | system
  | human_agent
deriving DecidableEq

/-- The `.value` string of a `MessageRole` member. -/
def MessageRole.value : MessageRole → String
  | .user => "user"
  | .bot => "bot"
  | .system => "system"
  | .human_agent => "human_agent"

/-- Enum `AgentType` from `models/human_agent.py`. -/
inductive AgentType where
  | BOT
  | HUMAN
deriving DecidableEq

/-- Enum `ToggleReason` from `models/human_agent.py`. -/
inductive ToggleReason where
  | CUSTOMER_REQUEST
  | AGENT_INITIATED
  | SENTIMENT_BASED
deriving DecidableEq

/-- The metadata dict attached to a stored turn.  `handle_query` attaches
sentiment metadata to USER turns, intent/RAG metadata to BOT turns, and
`transfer_to_human` attaches a transfer-reason dict to its SYSTEM turn
(the transfer-context sub-dict carries no information used by any claim
and is not modelled field-by-field). -/
inductive TurnMetadata where
  | analysis (sentiment_score : ℚ) (sentiment_confidence : ℚ) (full_analysis : Bool)
  | botInfo (intent : String) (rag_result_used : Option String)
  | transferInfo (transfer_reason : ToggleReason)
deriving DecidableEq

/-- Model `ChatTurn` from `models/human_agent.py`, as stored in the chat-history
collection by `ChatHistory.add_turn` (fields of `turn.dict()`). -/
structure ChatTurn where
  role : MessageRole
  content : String
  timestamp : Nat
  customer_id : String
  session_id : String
  metadata : Option TurnMetadata
deriving DecidableEq

/-- Build a `ChatTurn` the way `ChatHistory.add_turn` does. -/
def mkTurn (role : MessageRole) (content : String) (timestamp : Nat)
    (customer_id session_id : String) (metadata : Option TurnMetadata) : ChatTurn :=
  ⟨role, content, timestamp, customer_id, session_id, metadata⟩

/-- Model `ChatSession` from `models/human_agent.py` (the fields the claims
depend on). -/
structure ChatSession where
  session_id : String
  customer_id : String
  current_agent : AgentType
deriving DecidableEq

/-- Return dictionary of `SentimentAnalyzer.analyze_sentiment`. -/
structure SentimentResult where
  score : ℚ
  confidence : ℚ
  vader_score : ℚ
  llm_validated : Bool
deriving DecidableEq

/-- Model `AnalysisResult` from `models/human_agent.py`. -/
structure AnalysisResult where
  score : ℚ
  confidence : ℚ
  method_used : String
  full_analysis : Bool
  triggers_detected : List String
  analysis_details : Option SentimentResult
deriving DecidableEq

/-- Model `AgentDecision` from `models/human_agent.py`. -/
structure AgentDecision where
  should_transfer : Bool
  response : Option String
  transfer_reason : Option ToggleReason
deriving DecidableEq

/-- The component scores returned by VADER's `polarity_scores` (external
lexicon collaborator). -/
structure Polarity where
  compound : ℚ
  pos : ℚ
  neg : ℚ
  neu : ℚ
deriving DecidableEq

/-- Schema `ReasongingResult` (sic) from `query_handler.py`: output schema of the
reasoning agent. -/
structure ReasongingResult where
  expanded_query : List String
  need_search : Bool
deriving DecidableEq

/-- Schema `ResponseResult` from `query_handler.py`: output schema of the
response agent. -/
structure ResponseResult where
  response : String
  intent : String
  rag_result_used : Option String
  english_level : Option String
  course_interest : Option String
  lexile_level : Option String
deriving DecidableEq

/-- Oracles for the external collaborators reached during one
`handle_query` call.  Boolean `..Ok` fields say whether the corresponding
fallible call completes; `none` from an `Option` oracle stands for the
collaborator raising. -/
structure Env where
  /-- the MongoDB session upsert inside `get_or_create_session` completes -/
  sessionDbOk : Bool
  /-- the call `chat_history.collection.count_documents` completes -/
  countOk : Bool
  /-- the call `collection.insert_one` inside `ChatHistory.add_turn` completes -/
  insertOk : Bool
  /-- the call `manager.broadcast_to_session` inside `ChatHistory.add_turn` completes -/
  broadcastOk : Bool
  /-- whether `services.message_analyzer` is not `None` -/
  analyzerPresent : Bool
  /-- VADER `polarity_scores` (deterministic lexicon) -/
  polarity : String → Polarity
  /-- the sentiment-validation LLM: text ↦ parsed float score, `none` = raise -/
  llmScore : String → Option ℚ
  /-- the `_detect_human_request` LLM verdict: (query, recent_history) ↦ bool, `none` = raise -/
  detectHuman : String → String → Option Bool
  /-- the reasoning agent's structured output, `none` = raise -/
  reasoning : Option ReasongingResult
  /-- the call `hybrid_retriever.search` completes -/
  searchOk : Bool
  /-- the response agent's structured output, `none` = raise -/
  response : Option ResponseResult

/-- Configuration block `cfg.msg_analyzer`.  Regex trigger patterns are
abstracted as Boolean matchers on the lowercased message, keyed by
category name as in the config table. -/
structure MsgAnalyzerCfg where
  min_message_length : Nat
  analysis_interval : Int
  trigger_patterns : List (String × (String → Bool))

/-- Configuration block `cfg.human_agent`. -/
structure HumanAgentCfg where
  sentiment_threshold : ℚ
  confidence_threshold : ℚ

/-- Configuration block `cfg.sentiment_analyzer`. -/
structure SentimentCfg where
  llm_validate_threshold : ℚ

/-- The configuration surface consumed by the orchestration core. -/
structure Cfg where
  msg_analyzer : MsgAnalyzerCfg
  human_agent : HumanAgentCfg
  sentiment_analyzer : SentimentCfg

/-- Mutable process state: `services.active_sessions`, the durable
chat-history collection, the in-memory `conversation_turns` list of the
session's `ChatHistory` object, and a logical clock standing for
`datetime.now()` (strictly increasing across turn creations). -/
structure World where
  sessions : List ChatSession
  store : List ChatTurn
  mem : List ChatTurn
  clock : Nat
deriving DecidableEq

/-- Whether the character list `p` is a prefix of `l` (Boolean). -/
def charsHasPrefix : List Char → List Char → Bool
  | [], _ => true
  | _ :: _, [] => false
  | c :: cs, d :: ds => c == d && charsHasPrefix cs ds

/-- Whether the character list `sub` occurs contiguously inside `l`. -/
def charsContains (sub : List Char) : List Char → Bool
  | [] => sub.isEmpty
  | d :: ds => charsHasPrefix sub (d :: ds) || charsContains sub ds

/-- Python `pat in s` substring membership. -/
def strContains (s pat : String) : Bool :=
  charsContains pat.toList s.toList

/-- Python `s.lower()`. -/
def strLower (s : String) : String :=
  String.mk (s.toList.map Char.toLower)

/-- Python `s.capitalize()`: first character upper-cased, rest lower-cased. -/
def pyCapitalize (s : String) : String :=
  match s.toList with
  | [] => ""
  | c :: cs => String.mk (c.toUpper :: cs.map Char.toLower)

/-- Insert a turn into a list kept in descending-timestamp order, placing
it after existing turns with the same timestamp (stable). -/
def insertDescTs (t : ChatTurn) : List ChatTurn → List ChatTurn
  | [] => [t]
  | u :: us => if t.timestamp ≤ u.timestamp then u :: insertDescTs t us else t :: u :: us

/-- The store's `sort('timestamp', DESCENDING)`: stable descending sort by
timestamp. -/
def sortDescByTs (l : List ChatTurn) : List ChatTurn :=
  l.foldr insertDescTs []

/-- The Mongo filter `{'customer_id': cid, 'session_id': sid}` applied to
the turn collection. -/
def filterSession (docs : List ChatTurn) (cid sid : String) : List ChatTurn :=
  docs.filter (fun t => t.customer_id == cid && t.session_id == sid)

/-- One line of the prompt transcript: `Role: content`. -/
def formatTurnLine (t : ChatTurn) : String :=
  pyCapitalize t.role.value ++ ": " ++ t.content

/-- Method `ChatHistory.format_history_for_prompt`: newest `maxTurns` turns of
this `(customer_id, session_id)` sorted newest-first then reversed to
chronological order and rendered as `Role: content` lines.  When the
session-filtered query yields nothing, the code re-queries with **no
filter** and formats the newest turns of the whole collection.  The
surrounding try/except never lets this method raise. -/
def ChatHistory.format_history_for_prompt (docs : List ChatTurn) (cid sid : String)
    (maxTurns : Nat) : String :=
  let turns := (sortDescByTs (filterSession docs cid sid)).take maxTurns
  let turns := if turns.isEmpty then (sortDescByTs docs).take maxTurns else turns
  String.intercalate "\n" (turns.reverse.map formatTurnLine)

/-- Method `ChatHistory.get_recent_turns`: newest `limit` turns, first filtered by
(customer_id, session_id), falling back to customer_id only, then to no
filter; exceptions are caught and yield `[]` (the store read itself is
infallible in this model). -/
def ChatHistory.get_recent_turns (docs : List ChatTurn) (cid sid : String)
    (limit : Nat) : List ChatTurn :=
  let turns := (sortDescByTs (filterSession docs cid sid)).take limit
  let turns :=
    if turns.isEmpty then
      (sortDescByTs (docs.filter (fun t => t.customer_id == cid))).take limit
    else turns
  if turns.isEmpty then (sortDescByTs docs).take limit else turns

/-- The stored turn document's `turn.get('full_analysis', False)`: the
document produced by `turn.dict()` has keys role, content, timestamp,
customer_id, session_id and metadata only — `full_analysis` lives inside
the metadata sub-dict — so the top-level lookup always returns the
default `False`. -/
def turnDoc_full_analysis (_ : ChatTurn) : Bool := false

/-- Body of `ChatHistory.add_turn` up to the end of its `try` block: the
turn is built, appended to the in-memory `conversation_turns`, inserted
into the durable collection (may raise), then broadcast (may raise).
The `Except` component records whether the body raised; the `World`
component is the state at that moment. -/
def add_turn_run (w : World) (sid cid : String) (role : MessageRole) (content : String)
    (metadata : Option TurnMetadata) (insertOk broadcastOk : Bool) :
    Except Unit Unit × World :=
  let t := mkTurn role content w.clock cid sid metadata
  let w₁ : World := { w with mem := w.mem ++ [t], clock := w.clock + 1 }
  if insertOk then
    let w₂ : World := { w₁ with store := w₁.store ++ [t] }
    if broadcastOk then (Except.ok (), w₂) else (Except.error (), w₂)
  else (Except.error (), w₁)

/-- Method `ChatHistory.add_turn`: the whole body runs inside `try`/`except`, so
any raise from the insert or the broadcast is swallowed and the method
returns normally with whatever state the body reached. -/
def add_turn (w : World) (sid cid : String) (role : MessageRole) (content : String)
    (metadata : Option TurnMetadata) (insertOk broadcastOk : Bool) : World :=
  (add_turn_run w sid cid role content metadata insertOk broadcastOk).2

/-- Count `chat_history.collection.count_documents` for this session. -/
def countDocs (store : List ChatTurn) (sid : String) : Nat :=
  (store.filter (fun t => t.session_id == sid)).length

/-- Method `SentimentAnalyzer._analyze_vader`: rescale the compound score from
[-1,1] to [0,1] and derive a confidence from how polarized the
pos/neg/neu components are, clamped to [0,1]. -/
def analyze_vader (env : Env) (text : String) : ℚ × ℚ :=
  let scores := env.polarity text
  let score := (scores.compound + 1) / 2
  let confidence := min (max (|scores.pos - scores.neg| + (1 - scores.neu)) 0) 1
  (score, confidence)

/-- Method `SentimentAnalyzer._validate_with_llm`: ask the LLM for a score
(`none` = the call or the float parse raises); adopt the LLM score exactly
when it differs from the heuristic score by more than
`llm_validate_threshold`.  (The `if not self.llm` guard in the source is
dead: the constructor always assigns an LLM client.) -/
def validate_with_llm (scfg : SentimentCfg) (env : Env) (text : String)
    (score : ℚ) : Option (ℚ × Bool) :=
  match env.llmScore text with
  | none => none
  | some llm_score =>
    if |llm_score - score| > scfg.llm_validate_threshold then some (llm_score, true)
    else some (score, false)

/-- Method `SentimentAnalyzer.analyze_sentiment`: run VADER; when its confidence
is below 0.5 escalate to the LLM validator and, only when the validator
actually overrode the score, bump confidence to 0.9.  A raise inside is
re-raised (as ValueError), modelled by `none`. -/
def SentimentAnalyzer.analyze_sentiment (scfg : SentimentCfg) (env : Env)
    (text : String) : Option SentimentResult :=
  let iv := analyze_vader env text
  let initial_score := iv.1
  let confidence := iv.2
  if confidence < 1/2 then
    match validate_with_llm scfg env text initial_score with
    | none => none
    | some fs =>
      let confidence₂ := if fs.2 then (9 : ℚ)/10 else confidence
      some ⟨fs.1, confidence₂, initial_score, fs.2⟩
  else
    some ⟨initial_score, confidence, initial_score, false⟩

/-- Method `SentimentAnalyzer.get_sentiment_label`: threshold ladder from score
to label. -/
def SentimentAnalyzer.get_sentiment_label (score : ℚ) : String :=
  if score ≥ 3/4 then "very_positive"
  else if score ≥ 3/5 then "positive"
  else if score ≥ 2/5 then "neutral"
  else if score ≥ 1/4 then "negative"
  else "very_negative"

/-- Method `MessageAnalyzer._check_triggers`: the categories whose pattern
matches the lowercased message, in configuration order. -/
def MessageAnalyzer.check_triggers (cfg : MsgAnalyzerCfg) (message : String) :
    List String :=
  let message_lower := strLower message
  (cfg.trigger_patterns.filter (fun p => p.2 message_lower)).map (fun p => p.1)

/-- Method `MessageAnalyzer._quick_sentiment_check`: `None` for short messages,
0.8 when a polite keyword occurs, 0.3 when a trigger fires, else `None`. -/
def MessageAnalyzer.quick_sentiment_check (cfg : MsgAnalyzerCfg) (message : String) :
    Option ℚ :=
  let message_lower := strLower message
  if message.length < cfg.min_message_length then none
  else if ["thank", "good", "great", "excellent"].any
      (fun word => strContains message_lower word) then some ((8 : ℚ)/10)
  else if !(MessageAnalyzer.check_triggers cfg message).isEmpty then some ((3 : ℚ)/10)
  else none

/-- Method `MessageAnalyzer.should_analyze_message`: skip short messages, always
analyze on a trigger, otherwise analyze every `analysis_interval`
messages. -/
def MessageAnalyzer.should_analyze_message (cfg : MsgAnalyzerCfg) (message : String)
    (message_count last_analyzed_index : Int) : Bool :=
  if message.length < cfg.min_message_length then false
  else if !(MessageAnalyzer.check_triggers cfg message).isEmpty then true
  else if message_count - last_analyzed_index ≥ cfg.analysis_interval then true
  else false

/-- Method `MessageAnalyzer.analyze`: quick check first, then the gating policy,
then (only when gated in) the full `SentimentAnalyzer` pass, whose raise
propagates (`none`). -/
def MessageAnalyzer.analyze (cfg : MsgAnalyzerCfg) (scfg : SentimentCfg) (env : Env)
    (message : String) (message_count last_analyzed_index : Int) :
    Option AnalysisResult :=
  let triggers := MessageAnalyzer.check_triggers cfg message
  match MessageAnalyzer.quick_sentiment_check cfg message with
  | some quick_sentiment =>
      some ⟨quick_sentiment, (7 : ℚ)/10, "quick_check", false, triggers, none⟩
  | none =>
    if !(MessageAnalyzer.should_analyze_message cfg message
        message_count last_analyzed_index) then
      some ⟨(7 : ℚ)/10, (1 : ℚ)/2, "skipped", false, triggers, none⟩
    else
      match SentimentAnalyzer.analyze_sentiment scfg env message with
      | none => none
      | some sr =>
          some ⟨sr.score, sr.confidence, "full_analysis", true, triggers, some sr⟩

/-- Lookup `services.active_sessions.get(session_id)`. -/
def lookupSession (sessions : List ChatSession) (sid : String) : Option ChatSession :=
  sessions.find? (fun s => s.session_id == sid)

/-- Mutation `session.current_agent = a` on the registry entry for `sid`. -/
def setAgent (w : World) (sid : String) (a : AgentType) : World :=
  { w with
    sessions := w.sessions.map fun s =>
      if s.session_id == sid then { s with current_agent := a } else s }

/-- Method `ServiceContainer.get_or_create_session`: return the registered
session for `sid`, else create a fresh BOT session, register it, and
persist it.  The Mongo traffic on both paths (update of
`last_interaction`, lookup of an archived session, insert of the fresh
session) is collapsed into the single fallibility flag `sessionDbOk`; on
the create path the raise happens after the registry insert, as in the
source. -/
def ServiceContainer.get_or_create_session (env : Env) (w : World) (sid cid : String) :
    Except Unit ChatSession × World :=
  match lookupSession w.sessions sid with
  | some session =>
      if env.sessionDbOk then (Except.ok session, w) else (Except.error (), w)
  | none =>
      let session : ChatSession := ⟨sid, cid, AgentType.BOT⟩
      let w₁ : World := { w with sessions := w.sessions ++ [session] }
      if env.sessionDbOk then (Except.ok session, w₁) else (Except.error (), w₁)

/-- Method `HumanAgentHandler.transfer_to_human`: `false` when the session is not
registered; otherwise fetch the transfer context (its own exceptions are
caught inside `get_transfer_context`), append one SYSTEM notice turn with
the reason, flip `current_agent` to HUMAN and return `true`.  There is no
already-HUMAN short-circuit in the source.  `reason.value` on a `None`
reason would raise (`none`); with a real reason the function cannot
raise. -/
def HumanAgentHandler.transfer_to_human (env : Env) (w : World) (sid : String)
    (reason : Option ToggleReason) : Option (Bool × World) :=
  match lookupSession w.sessions sid with
  | none => some (false, w)
  | some session =>
    match reason with
    | none => none
    | some r =>
      let w₁ := add_turn w sid session.customer_id .system
        "Chat transferred to human agent" (some (TurnMetadata.transferInfo r))
        env.insertOk env.broadcastOk
      some (true, setAgent w₁ sid AgentType.HUMAN)

/-- Fixed string returned on the human-agent paths of `handle_query`. -/
def forwardedMsg : String := "Message forwarded to human agent"

/-- Fixed string returned when `transfer_to_human` reports failure. -/
def busyMsg : String := "All our staff are currently busy. I'll continue to assist you."

/-- Fixed apology persisted and returned by the top-level handler of
`handle_query`. -/
def errorMsg : String :=
  "Sorry, there was an error processing your query. Please try again later or contact our support."

/-- The body of the `except` clause of `handle_query` once `chat_history`
is bound: persist the apology as a BOT turn (`add_turn` cannot raise) and
return the apology. -/
def handleError (env : Env) (w : World) (sid cid : String) :
    Except Unit String × World :=
  (Except.ok errorMsg, add_turn w sid cid .bot errorMsg none env.insertOk env.broadcastOk)

/-- The last-analyzed counter computed in `QueryHandler.analyze_sentiment`:
`sum(1 for turn in recent_turns if turn.get('full_analysis', False))` over
`get_recent_turns()` (default limit 10); the stored documents carry no
top-level `full_analysis` key, so this is always 0. -/
def lastAnalyzedCount (store : List ChatTurn) (sid cid : String) : Int :=
  ((ChatHistory.get_recent_turns store cid sid 10).filter turnDoc_full_analysis).length

/-- Method `QueryHandler.analyze_sentiment`: session guard, human-mode
short-circuit (which itself appends the USER turn un-analysed), the
`total_count < cfg.msg_analyzer.min_message_length` and missing-analyzer
early exits, then `MessageAnalyzer.analyze`, `_detect_human_request` and
the transfer decision.  Raises from the analyzer or the detector
propagate (`Except.error`).  The falsy `{}` returned for the analysis
result on the human path is modelled as `none` (like `None`, it makes
`handle_query` skip the metadata). -/
def QueryHandler.analyze_sentiment (env : Env) (cfg : Cfg) (w : World)
    (sid cid message : String) (total_count : Nat) :
    Except Unit (Option AnalysisResult × AgentDecision) × World :=
  match lookupSession w.sessions sid with
  | none =>
      (Except.ok (none, ⟨false, some "Session not found. Please try again.", none⟩), w)
  | some session =>
    if session.current_agent = AgentType.HUMAN then
      let w₁ := add_turn w sid cid .user message none env.insertOk env.broadcastOk
      (Except.ok (none, ⟨true, none, none⟩), w₁)
    else
      let last_analyzed := lastAnalyzedCount w.store sid cid
      if total_count < cfg.msg_analyzer.min_message_length then
        (Except.ok (none, ⟨false, none, none⟩), w)
      else if !env.analyzerPresent then
        (Except.ok (none, ⟨false, none, none⟩), w)
      else
        match MessageAnalyzer.analyze cfg.msg_analyzer cfg.sentiment_analyzer env
            message (Int.ofNat total_count) last_analyzed with
        | none => (Except.error (), w)
        | some analysis_result =>
          let recent_history := ChatHistory.format_history_for_prompt w.store cid sid 30
          match env.detectHuman message recent_history with
          | none => (Except.error (), w)
          | some needs_human =>
            let should_transfer := needs_human ||
              (decide (analysis_result.score < cfg.human_agent.sentiment_threshold) &&
               decide (analysis_result.confidence > cfg.human_agent.confidence_threshold))
            if should_transfer then
              (Except.ok (some analysis_result,
                ⟨true, some "Transferring to human agent...",
                 some (if needs_human then ToggleReason.CUSTOMER_REQUEST
                       else ToggleReason.SENTIMENT_BASED)⟩), w)
            else
              (Except.ok (some analysis_result, ⟨false, none, none⟩), w)

/-- The sentiment metadata `handle_query` attaches to the USER turn:
present exactly when the analysis step produced a (truthy) result. -/
def userMdOf : Option AnalysisResult → Option TurnMetadata
  | some r => some (TurnMetadata.analysis r.score r.confidence r.full_analysis)
  | none => none

/-- Continuation of `handle_query` after the USER turn has been persisted:
the transfer branch (lines 177–197 of `query_handler.py`) and the
reasoning / retrieval / response branch (lines 199–242), with every raise
landing in the top-level handler (`handleError`), which is reachable here
because `chat_history` is bound. -/
def afterPersist (env : Env) (w : World) (sid cid : String) (dec : AgentDecision) :
    Except Unit String × World :=
  if dec.should_transfer then
    match HumanAgentHandler.transfer_to_human env w sid dec.transfer_reason with
    | none => handleError env w sid cid
    | some (success, w₁) =>
      if success then
        match dec.response with
        | some resp =>
            (Except.ok forwardedMsg,
             add_turn w₁ sid cid .system resp none env.insertOk env.broadcastOk)
        | none => (Except.ok forwardedMsg, w₁)
      else
        (Except.ok busyMsg,
         add_turn w₁ sid cid .system busyMsg none env.insertOk env.broadcastOk)
  else
    match env.reasoning with
    | none => handleError env w sid cid
    | some reasoning_result =>
      if reasoning_result.need_search && !reasoning_result.expanded_query.isEmpty
          && !env.searchOk then
        handleError env w sid cid
      else
        match env.response with
        | none => handleError env w sid cid
        | some result =>
          (Except.ok result.response,
           add_turn w sid cid .bot result.response
             (some (TurnMetadata.botInfo result.intent result.rag_result_used))
             env.insertOk env.broadcastOk)

/-- Method `QueryHandler.handle_query`: resolve the session, short-circuit to the
human path, else count this session's stored turns, run the
sentiment/transfer step, persist the USER turn with metadata exactly when
analysis produced a result, then transfer or generate a response.  Any
raise after `chat_history` is bound is caught and turned into the
persisted apology; a raise inside `get_or_create_session` leaves
`chat_history` unbound, so the `except` clause itself raises
(`Except.error`, the UnboundLocalError). -/
def QueryHandler.handle_query (env : Env) (cfg : Cfg) (w : World)
    (query sid cid : String) : Except Unit String × World :=
  match ServiceContainer.get_or_create_session env w sid cid with
  | (Except.error _, w₁) => (Except.error (), w₁)
  | (Except.ok session, w₁) =>
    if session.current_agent = AgentType.HUMAN then
      (Except.ok forwardedMsg,
       add_turn w₁ sid cid .user query none env.insertOk env.broadcastOk)
    else
      if env.countOk then
        let total_count := countDocs w₁.store sid
        match QueryHandler.analyze_sentiment env cfg w₁ sid cid query total_count with
        | (Except.error _, w₂) => handleError env w₂ sid cid
        | (Except.ok (analysis_result, agent_decision), w₂) =>
          let w₃ := add_turn w₂ sid cid .user query (userMdOf analysis_result)
            env.insertOk env.broadcastOk
          afterPersist env w₃ sid cid agent_decision
      else handleError env w₁ sid cid

/-- The analysis result that this `handle_query` call obtains from its
sentiment step (`none` when no analysis ran: human mode, early exits, or
a raise).  Used to state the metadata half of the append-once property. -/
def analysisOf (env : Env) (cfg : Cfg) (w : World) (query sid cid : String) :
    Option AnalysisResult :=
  match ServiceContainer.get_or_create_session env w sid cid with
  | (Except.error _, _) => none
  | (Except.ok session, w₁) =>
    if session.current_agent = AgentType.HUMAN then none
    else
      match (QueryHandler.analyze_sentiment env cfg w₁ sid cid query
          (countDocs w₁.store sid)).1 with
      | Except.ok (a, _) => a
      | Except.error _ => none

/-! ### Helper lemmas about the embedded operations -/

theorem add_turn_mem (w : World) (sid cid : String) (role : MessageRole)
    (content : String) (md : Option TurnMetadata) (iOk bOk : Bool) :
    (add_turn w sid cid role content md iOk bOk).mem =
      w.mem ++ [mkTurn role content w.clock cid sid md] := by
  cases iOk <;> cases bOk <;> rfl

theorem add_turn_store (w : World) (sid cid : String) (role : MessageRole)
    (content : String) (md : Option TurnMetadata) (iOk bOk : Bool) :
    (add_turn w sid cid role content md iOk bOk).store =
      w.store ++ (if iOk then [mkTurn role content w.clock cid sid md] else []) := by
  cases iOk <;> cases bOk <;> simp [add_turn, add_turn_run, mkTurn]

theorem add_turn_sessions (w : World) (sid cid : String) (role : MessageRole)
    (content : String) (md : Option TurnMetadata) (iOk bOk : Bool) :
    (add_turn w sid cid role content md iOk bOk).sessions = w.sessions := by
  cases iOk <;> cases bOk <;> rfl

theorem setAgent_store (w : World) (sid : String) (a : AgentType) :
    (setAgent w sid a).store = w.store := rfl

theorem get_or_create_session_ok (env : Env) (w : World) (sid cid : String)
    (hS : env.sessionDbOk = true) :
    ∃ s w₁, ServiceContainer.get_or_create_session env w sid cid = (Except.ok s, w₁) ∧
      w₁.store = w.store ∧ w₁.mem = w.mem ∧ w₁.clock = w.clock ∧
      lookupSession w₁.sessions sid = some s := by
  cases h : lookupSession w.sessions sid with
  | some s =>
    exact ⟨s, w, by simp [ServiceContainer.get_or_create_session, h, hS], rfl, rfl, rfl, h⟩
  | none =>
    refine ⟨⟨sid, cid, AgentType.BOT⟩,
      { w with sessions := w.sessions ++ [⟨sid, cid, AgentType.BOT⟩] },
      by simp [ServiceContainer.get_or_create_session, h, hS], rfl, rfl, rfl, ?_⟩
    unfold lookupSession at h ⊢
    simp [List.find?_append, h, List.find?]

theorem handleError_store (env : Env) (w : World) (sid cid : String) :
    (handleError env w sid cid).2.store =
      w.store ++ (if env.insertOk then [mkTurn .bot errorMsg w.clock cid sid none] else []) := by
  simpa [handleError] using add_turn_store w sid cid .bot errorMsg none env.insertOk env.broadcastOk

theorem transfer_to_human_store (env : Env) (w : World) (sid : String) (r : ToggleReason) :
    ∃ b w₁, HumanAgentHandler.transfer_to_human env w sid (some r) = some (b, w₁) ∧
      ∃ delta, w₁.store = w.store ++ delta ∧
        ∀ t ∈ delta, t.role = MessageRole.system := by
  unfold HumanAgentHandler.transfer_to_human
  cases h : lookupSession w.sessions sid with
  | none => exact ⟨false, w, rfl, [], by simp⟩
  | some s =>
    refine ⟨true, _, rfl, ?_⟩
    rw [setAgent_store, add_turn_store]
    refine ⟨_, rfl, ?_⟩
    intro t ht
    cases hins : env.insertOk <;> rw [hins] at ht <;> simp at ht
    rw [ht]; rfl

theorem transfer_to_human_inv (env : Env) (w : World) (sid : String)
    (reason : Option ToggleReason) (b : Bool) (w₁ : World)
    (h : HumanAgentHandler.transfer_to_human env w sid reason = some (b, w₁)) :
    ∃ delta, w₁.store = w.store ++ delta ∧
      ∀ t ∈ delta, t.role = MessageRole.system := by
  unfold HumanAgentHandler.transfer_to_human at h
  cases hl : lookupSession w.sessions sid with
  | none =>
    rw [hl] at h
    simp only [Option.some.injEq, Prod.mk.injEq] at h
    refine ⟨[], ?_, by simp⟩
    rw [← h.2]
    simp
  | some s =>
    rw [hl] at h
    cases reason with
    | none => simp at h
    | some r =>
      simp only [Option.some.injEq, Prod.mk.injEq] at h
      rw [← h.2, setAgent_store, add_turn_store]
      refine ⟨_, rfl, ?_⟩
      intro t ht
      cases hins : env.insertOk <;> rw [hins] at ht <;> simp at ht
      rw [ht]; rfl

theorem afterPersist_store (env : Env) (w : World) (sid cid : String)
    (dec : AgentDecision) :
    ∃ delta, (afterPersist env w sid cid dec).2.store = w.store ++ delta ∧
      ∀ t ∈ delta, t.role = MessageRole.system ∨ t.role = MessageRole.bot := by
  unfold afterPersist
  by_cases hT : dec.should_transfer
  · rw [if_pos hT]
    cases htr : HumanAgentHandler.transfer_to_human env w sid dec.transfer_reason with
    | none =>
      refine ⟨_, handleError_store env w sid cid, ?_⟩
      intro t ht
      cases hins : env.insertOk <;> rw [hins] at ht <;> simp at ht
      rw [ht]; right; rfl
    | some p =>
      obtain ⟨success, w₁⟩ := p
      obtain ⟨delta₁, hd₁, hr₁⟩ := transfer_to_human_inv env w sid dec.transfer_reason success w₁ htr
      cases success with
      | true =>
        cases hresp : dec.response with
        | none =>
          exact ⟨delta₁, by simpa using hd₁, fun t ht => Or.inl (hr₁ t ht)⟩
        | some resp =>
          dsimp only
          rw [if_pos rfl]
          rw [add_turn_store, hd₁, List.append_assoc]
          refine ⟨_, rfl, ?_⟩
          intro t ht
          rcases List.mem_append.mp ht with h1 | h2
          · exact Or.inl (hr₁ t h1)
          · cases hins : env.insertOk <;> rw [hins] at h2 <;> simp at h2
            rw [h2]; left; rfl
      | false =>
        dsimp only
        rw [if_neg (by simp)]
        rw [add_turn_store, hd₁, List.append_assoc]
        refine ⟨_, rfl, ?_⟩
        intro t ht
        rcases List.mem_append.mp ht with h1 | h2
        · exact Or.inl (hr₁ t h1)
        · cases hins : env.insertOk <;> rw [hins] at h2 <;> simp at h2
          rw [h2]; left; rfl
  · rw [if_neg hT]
    cases hre : env.reasoning with
    | none =>
      refine ⟨_, handleError_store env w sid cid, ?_⟩
      intro t ht
      cases hins : env.insertOk <;> rw [hins] at ht <;> simp at ht
      rw [ht]; right; rfl
    | some rr =>
      dsimp only
      by_cases hsr : (rr.need_search && !rr.expanded_query.isEmpty && !env.searchOk) = true
      · rw [if_pos hsr]
        refine ⟨_, handleError_store env w sid cid, ?_⟩
        intro t ht
        cases hins : env.insertOk <;> rw [hins] at ht <;> simp at ht
        rw [ht]; right; rfl
      · rw [if_neg hsr]
        cases hrsp : env.response with
        | none =>
          refine ⟨_, handleError_store env w sid cid, ?_⟩
          intro t ht
          cases hins : env.insertOk <;> rw [hins] at ht <;> simp at ht
          rw [ht]; right; rfl
        | some result =>
          rw [add_turn_store]
          refine ⟨_, rfl, ?_⟩
          intro t ht
          cases hins : env.insertOk <;> rw [hins] at ht <;> simp at ht
          rw [ht]; right; rfl

theorem sentiment_analyze_isSome (scfg : SentimentCfg) (env : Env) (text : String)
    (hL : env.llmScore text ≠ none) :
    (SentimentAnalyzer.analyze_sentiment scfg env text).isSome := by
  unfold SentimentAnalyzer.analyze_sentiment validate_with_llm
  cases hv : env.llmScore text with
  | none => exact absurd hv hL
  | some l =>
    dsimp only
    by_cases hc : (analyze_vader env text).2 < 1/2
    · rw [if_pos hc]
      by_cases hgt : |l - (analyze_vader env text).1| > scfg.llm_validate_threshold
      · rw [if_pos hgt]; rfl
      · rw [if_neg hgt]; rfl
    · rw [if_neg hc]; rfl

theorem message_analyze_isSome (cfg : MsgAnalyzerCfg) (scfg : SentimentCfg) (env : Env)
    (m : String) (c l : Int) (hL : env.llmScore m ≠ none) :
    (MessageAnalyzer.analyze cfg scfg env m c l).isSome := by
  unfold MessageAnalyzer.analyze
  cases hq : MessageAnalyzer.quick_sentiment_check cfg m with
  | some q => rfl
  | none =>
    dsimp only
    split
    · rfl
    · have hs := sentiment_analyze_isSome scfg env m hL
      cases hsa : SentimentAnalyzer.analyze_sentiment scfg env m with
      | none => rw [hsa] at hs; exact absurd hs (by simp)
      | some sr => rfl

theorem qh_analyze_ok (env : Env) (cfg : Cfg) (w : World) (sid cid msg : String)
    (total : Nat) (s : ChatSession)
    (hs : lookupSession w.sessions sid = some s)
    (hb : s.current_agent ≠ AgentType.HUMAN)
    (hL : env.llmScore msg ≠ none)
    (hD : ∀ h, env.detectHuman msg h ≠ none) :
    ∃ a d, QueryHandler.analyze_sentiment env cfg w sid cid msg total =
      (Except.ok (a, d), w) := by
  unfold QueryHandler.analyze_sentiment
  rw [hs]
  dsimp only
  rw [if_neg hb]
  split
  · exact ⟨none, _, rfl⟩
  · split
    · exact ⟨none, _, rfl⟩
    · have hma := message_analyze_isSome cfg.msg_analyzer cfg.sentiment_analyzer env msg
        (Int.ofNat total) (lastAnalyzedCount w.store sid cid) hL
      cases hm : MessageAnalyzer.analyze cfg.msg_analyzer cfg.sentiment_analyzer env msg
          (Int.ofNat total) (lastAnalyzedCount w.store sid cid) with
      | none => rw [hm] at hma; exact absurd hma (by simp)
      | some r =>
        dsimp only
        cases hd : env.detectHuman msg
            (ChatHistory.format_history_for_prompt w.store cid sid 30) with
        | none => exact absurd hd (hD _)
        | some needs =>
          dsimp only
          split
          · exact ⟨some r, _, rfl⟩
          · exact ⟨some r, _, rfl⟩

theorem check_triggers_ne_nil (cfg : MsgAnalyzerCfg) (m : String) :
    (!(MessageAnalyzer.check_triggers cfg m).isEmpty) = true ↔
      ∃ p ∈ cfg.trigger_patterns, p.2 (strLower m) = true := by
  simp [MessageAnalyzer.check_triggers, List.isEmpty_iff, List.filter_eq_nil_iff]

/-! ### Concrete fixtures used by witnesses and counterexamples -/

/-- An environment in which every collaborator succeeds. -/
def envAllOk : Env :=
  { sessionDbOk := true, countOk := true, insertOk := true, broadcastOk := true,
    analyzerPresent := true,
    polarity := fun _ => ⟨0, 1/10, 1/10, 9/10⟩,
    llmScore := fun _ => some (1/2),
    detectHuman := fun _ _ => some false,
    reasoning := some ⟨["expanded query"], true⟩,
    searchOk := true,
    response := some ⟨"Here are our courses.", "course_info", some "doc1", none, none, none⟩ }

/-- A configuration with `min_message_length` 100 (the same field also
gates on the turn count in `QueryHandler.analyze_sentiment`), interval 5,
no trigger patterns. -/
def cfg100 : Cfg := ⟨⟨100, 5, []⟩, ⟨2/5, 7/10⟩, ⟨1/5⟩⟩

/-- A registered bot-owned session. -/
def sessionBot : ChatSession := ⟨"s1", "c1", AgentType.BOT⟩

/-- World with one bot-owned session and an empty store. -/
def wBot : World := ⟨[sessionBot], [], [], 0⟩

/-- A stored turn of the bot-owned session. -/
def storedTurn : ChatTurn := ⟨.user, "earlier message", 0, "c1", "s1", none⟩

/-- World with one bot-owned session and 100 stored turns, enough to pass
the `total_count` gate of `cfg100`. -/
def wBot100 : World := ⟨[sessionBot], List.replicate 100 storedTurn, [], 100⟩

/-- World whose only session is already owned by a human agent. -/
def wHuman : World := ⟨[⟨"s1", "c1", AgentType.HUMAN⟩], [], [], 0⟩

/-! ### The claims -/

/-- C10: `ChatHistory.add_turn` never raises for any role, content or
metadata: the turn is appended to the in-memory `conversation_turns` list
before the durable insert is attempted; a raise from the insert or the
broadcast (the `Except.error` of the run body) is caught so the method
returns normally; with a failed insert the durable store is unchanged
while the in-memory copy still holds the turn, and with a successful
insert the store holds it even if the broadcast then raises. -/
theorem add_turn_appends_memory_and_swallows_insert_failure (w : World)
    (sid cid : String) (role : MessageRole) (content : String)
    (md : Option TurnMetadata) (bOk : Bool) :
    (∀ iOk, (add_turn w sid cid role content md iOk bOk).mem =
        w.mem ++ [mkTurn role content w.clock cid sid md]) ∧
    (add_turn_run w sid cid role content md false bOk).1 = Except.error () ∧
    (add_turn w sid cid role content md false bOk).store = w.store ∧
    (add_turn w sid cid role content md true false).store =
      w.store ++ [mkTurn role content w.clock cid sid md] := by
  refine ⟨fun iOk => add_turn_mem w sid cid role content md iOk bOk, rfl, rfl, rfl⟩

/-- C8: `SentimentAnalyzer.get_sentiment_label` is the exact threshold
ladder ≥0.75 very_positive, ≥0.6 positive, ≥0.4 neutral, ≥0.25 negative,
else very_negative, with the boundary values 0.75, 0.749, 0.25 and 0.2499
pinned. -/
theorem get_sentiment_label_ladder :
    (∀ s : ℚ, 3/4 ≤ s → SentimentAnalyzer.get_sentiment_label s = "very_positive") ∧
    (∀ s : ℚ, 3/5 ≤ s → s < 3/4 → SentimentAnalyzer.get_sentiment_label s = "positive") ∧
    (∀ s : ℚ, 2/5 ≤ s → s < 3/5 → SentimentAnalyzer.get_sentiment_label s = "neutral") ∧
    (∀ s : ℚ, 1/4 ≤ s → s < 2/5 → SentimentAnalyzer.get_sentiment_label s = "negative") ∧
    (∀ s : ℚ, s < 1/4 → SentimentAnalyzer.get_sentiment_label s = "very_negative") ∧
    SentimentAnalyzer.get_sentiment_label (3/4) = "very_positive" ∧
    SentimentAnalyzer.get_sentiment_label (749/1000) = "positive" ∧
    SentimentAnalyzer.get_sentiment_label (1/4) = "negative" ∧
    SentimentAnalyzer.get_sentiment_label (2499/10000) = "very_negative" := by
  unfold SentimentAnalyzer.get_sentiment_label
  refine ⟨?_, ?_, ?_, ?_, ?_, ?_, ?_, ?_, ?_⟩
  · intro s h; rw [if_pos h]
  · intro s h1 h2; rw [if_neg (not_le.mpr h2), if_pos h1]
  · intro s h1 h2
    rw [if_neg (not_le.mpr (h2.trans (by norm_num))), if_neg (not_le.mpr h2), if_pos h1]
  · intro s h1 h2
    rw [if_neg (not_le.mpr (h2.trans (by norm_num))),
      if_neg (not_le.mpr (h2.trans (by norm_num))), if_neg (not_le.mpr h2), if_pos h1]
  · intro s h1
    rw [if_neg (not_le.mpr (h1.trans (by norm_num))),
      if_neg (not_le.mpr (h1.trans (by norm_num))),
      if_neg (not_le.mpr (h1.trans (by norm_num))), if_neg (not_le.mpr h1)]
  · rw [if_pos (by norm_num)]
  · rw [if_neg (by norm_num), if_pos (by norm_num)]
  · rw [if_neg (by norm_num), if_neg (by norm_num), if_neg (by norm_num),
      if_pos (by norm_num)]
  · rw [if_neg (by norm_num), if_neg (by norm_num), if_neg (by norm_num),
      if_neg (by norm_num)]

/-- Witness for C8: the ladder applied at the concrete score 1. -/
theorem get_sentiment_label_ladder_witness :
    SentimentAnalyzer.get_sentiment_label 1 = "very_positive" :=
  get_sentiment_label_ladder.1 1 (by norm_num)

/-- C7: `MessageAnalyzer.should_analyze_message` is a pure function of
`(message, message_count, last_analyzed_index, config)` and returns true
exactly when the message is long enough and either some configured
trigger pattern matches the lowercased message or
`message_count - last_analyzed_index` has reached `analysis_interval`. -/
theorem should_analyze_message_characterization (cfg : MsgAnalyzerCfg) (m : String)
    (c l : Int) :
    MessageAnalyzer.should_analyze_message cfg m c l = true ↔
      (cfg.min_message_length ≤ m.length ∧
        ((∃ p ∈ cfg.trigger_patterns, p.2 (strLower m) = true) ∨
         cfg.analysis_interval ≤ c - l)) := by
  unfold MessageAnalyzer.should_analyze_message
  by_cases h1 : m.length < cfg.min_message_length
  · rw [if_pos h1]
    constructor
    · intro hF; exact absurd hF (by simp)
    · rintro ⟨hlen, _⟩; omega
  · rw [if_neg h1]
    by_cases h2 : (!(MessageAnalyzer.check_triggers cfg m).isEmpty) = true
    · rw [if_pos h2]
      simp only [true_iff]
      exact ⟨by omega, Or.inl ((check_triggers_ne_nil cfg m).mp h2)⟩
    · rw [if_neg h2]
      by_cases h3 : c - l ≥ cfg.analysis_interval
      · rw [if_pos h3]
        simp only [true_iff]
        exact ⟨by omega, Or.inr h3⟩
      · rw [if_neg h3]
        constructor
        · intro hF; exact absurd hF (by simp)
        · rintro ⟨hlen, htrig | hint⟩
          · exact absurd ((check_triggers_ne_nil cfg m).mpr htrig) h2
          · exact absurd hint h3

/-- Witness for C7: a trigger pattern forces analysis on a long-enough
message regardless of cadence. -/
theorem should_analyze_message_characterization_witness :
    MessageAnalyzer.should_analyze_message
      ⟨3, 5, [("urgency", fun s => strContains s "urgent")]⟩ "URGENT help" 0 0 = true :=
  (should_analyze_message_characterization
      ⟨3, 5, [("urgency", fun s => strContains s "urgent")]⟩ "URGENT help" 0 0).mpr
    ⟨by decide, Or.inl ⟨("urgency", fun s => strContains s "urgent"), by simp, by decide⟩⟩

theorem find?_setAgent (sid : String) (a : AgentType) (l : List ChatSession) :
    List.find? (fun s => s.session_id == sid)
        (l.map fun s => if s.session_id == sid then { s with current_agent := a } else s) =
      (List.find? (fun s => s.session_id == sid) l).map
        (fun s => { s with current_agent := a }) := by
  induction l with
  | nil => rfl
  | cons x xs ih =>
    by_cases hx : x.session_id == sid
    · simp [List.find?, hx]
    · simp only [List.map_cons, List.find?]
      rw [if_neg (by simpa using hx)]
      simp only [hx]
      simpa [Bool.not_eq_true] using ih

/-- C3 is false as stated: on a session that is already HUMAN,
`transfer_to_human` does not no-op — it appends another SYSTEM transfer
notice turn (and still returns true). -/
theorem transfer_to_human_appends_notice_when_already_human :
    (lookupSession wHuman.sessions "s1").map ChatSession.current_agent
        = some AgentType.HUMAN ∧
    (HumanAgentHandler.transfer_to_human envAllOk wHuman "s1"
        (some ToggleReason.CUSTOMER_REQUEST)).map
      (fun p => (p.1, p.2.store.map (fun t => (t.role, t.content)))) =
      some (true, [(MessageRole.system, "Chat transferred to human agent")]) :=
  ⟨rfl, rfl⟩

/-- C3 (amended): `transfer_to_human` returns false exactly when the
session cannot be found; otherwise — including when `current_agent` is
already HUMAN — it appends one SYSTEM transfer-notice turn, sets
`current_agent` to HUMAN and returns true (there is no already-HUMAN
no-op short-circuit). -/
theorem transfer_to_human_characterization (env : Env) (w : World) (sid : String)
    (r : ToggleReason) (hI : env.insertOk = true) :
    (lookupSession w.sessions sid = none →
      HumanAgentHandler.transfer_to_human env w sid (some r) = some (false, w)) ∧
    (∀ s, lookupSession w.sessions sid = some s →
      ∃ w₁, HumanAgentHandler.transfer_to_human env w sid (some r) = some (true, w₁) ∧
        w₁.store = w.store ++ [mkTurn .system "Chat transferred to human agent" w.clock
          s.customer_id sid (some (TurnMetadata.transferInfo r))] ∧
        (lookupSession w₁.sessions sid).map ChatSession.current_agent
          = some AgentType.HUMAN) := by
  constructor
  · intro h
    unfold HumanAgentHandler.transfer_to_human
    rw [h]
  · intro s h
    unfold HumanAgentHandler.transfer_to_human
    rw [h]
    dsimp only
    refine ⟨_, rfl, ?_, ?_⟩
    · rw [setAgent_store, add_turn_store, hI]
      simp
    · unfold setAgent lookupSession
      rw [add_turn_sessions, find?_setAgent]
      unfold lookupSession at h
      rw [h]
      rfl

/-- Witness for C3 (amended): applying the characterization to a found
(already-HUMAN) session. -/
theorem transfer_to_human_characterization_witness :
    envAllOk.insertOk = true ∧
    lookupSession wHuman.sessions "s1" = some ⟨"s1", "c1", AgentType.HUMAN⟩ ∧
    ∃ w₁, HumanAgentHandler.transfer_to_human envAllOk wHuman "s1"
        (some ToggleReason.SENTIMENT_BASED) = some (true, w₁) ∧
      w₁.store = wHuman.store ++ [mkTurn .system "Chat transferred to human agent"
        wHuman.clock "c1" "s1"
        (some (TurnMetadata.transferInfo ToggleReason.SENTIMENT_BASED))] ∧
      (lookupSession w₁.sessions "s1").map ChatSession.current_agent
        = some AgentType.HUMAN :=
  ⟨rfl, rfl,
    (transfer_to_human_characterization envAllOk wHuman "s1"
        ToggleReason.SENTIMENT_BASED rfl).2 ⟨"s1", "c1", AgentType.HUMAN⟩ rfl⟩

/-- C4: when the stored-turn count `total_count` is below
`msg_analyzer.min_message_length` (a parameter that is otherwise a minimum
character length) and the session is bot-owned or unknown,
`QueryHandler.analyze_sentiment` returns no analysis result and a
no-transfer decision with the world unchanged, and the result is the same
for every environment — so neither the `MessageAnalyzer` nor the
human-request detector can influence it, and no sentiment-based or
customer-requested transfer can occur for such an early message whatever
its content. -/
theorem analyze_sentiment_skips_below_min_count (cfg : Cfg) (w : World)
    (sid cid msg : String) (total : Nat)
    (hb : ∀ s, lookupSession w.sessions sid = some s →
      s.current_agent = AgentType.BOT)
    (hmin : total < cfg.msg_analyzer.min_message_length) :
    ∃ d : AgentDecision, d.should_transfer = false ∧ d.transfer_reason = none ∧
      ∀ env : Env, QueryHandler.analyze_sentiment env cfg w sid cid msg total =
        (Except.ok (none, d), w) := by
  cases h : lookupSession w.sessions sid with
  | none =>
    refine ⟨⟨false, some "Session not found. Please try again.", none⟩, rfl, rfl,
      fun env => ?_⟩
    unfold QueryHandler.analyze_sentiment
    rw [h]
  | some s =>
    refine ⟨⟨false, none, none⟩, rfl, rfl, fun env => ?_⟩
    unfold QueryHandler.analyze_sentiment
    rw [h]
    dsimp only
    rw [if_neg (by simp [hb s h]), if_pos hmin]

/-- Witness for C4: a furious message arriving while only 0 turns are
stored (below the gate of 100) yields a no-transfer decision in every
environment. -/
theorem analyze_sentiment_skips_below_min_count_witness :
    (∀ s, lookupSession wBot.sessions "s1" = some s →
      s.current_agent = AgentType.BOT) ∧
    0 < cfg100.msg_analyzer.min_message_length ∧
    ∃ d : AgentDecision, d.should_transfer = false ∧ d.transfer_reason = none ∧
      ∀ env : Env, QueryHandler.analyze_sentiment env cfg100 wBot "s1" "c1"
        "this service is terrible and I am furious" 0 =
        (Except.ok (none, d), wBot) := by
  have hb : ∀ s, lookupSession wBot.sessions "s1" = some s →
      s.current_agent = AgentType.BOT := by
    intro s h
    have hs : sessionBot = s := by
      simpa [lookupSession, wBot, sessionBot, List.find?] using h
    rw [← hs]; rfl
  exact ⟨hb, by norm_num [cfg100],
    analyze_sentiment_skips_below_min_count cfg100 wBot "s1" "c1"
      "this service is terrible and I am furious" 0 hb (by norm_num [cfg100])⟩

/-- Environment whose lexicon reading is maximally polarized (confidence
clamps to 1). -/
def envConfident : Env := { envAllOk with polarity := fun _ => ⟨1, 1, 0, 0⟩ }

/-- C5 is false as stated: with lexicon-stage confidence 1/10 (below 0.5)
the analyzer does escalate to the LLM, but because the LLM score 1/2
agrees with the lexicon score 1/2 within the 1/5 threshold, the result
keeps the lexicon score with the original confidence 1/10 — the claimed
"LLM score with confidence bumped to 0.9" does not hold. -/
theorem analyze_sentiment_low_confidence_no_bump :
    (analyze_vader envAllOk "okay I guess").2 < 1/2 ∧
    SentimentAnalyzer.analyze_sentiment ⟨1/5⟩ envAllOk "okay I guess" =
      some ⟨1/2, 1/10, 1/2, false⟩ ∧
    ((1 : ℚ)/10 ≠ 9/10) := by
  refine ⟨by norm_num [analyze_vader, envAllOk], ?_, by norm_num⟩
  norm_num [SentimentAnalyzer.analyze_sentiment, validate_with_llm, analyze_vader,
    envAllOk]

/-- C5 (amended): when the lexicon confidence is at least 0.5 the LLM is
never consulted (same result under any environment with the same lexicon)
and the lexicon score and confidence are returned unchanged; when the
confidence is below 0.5 the analyzer escalates to the LLM validator and
the result carries the LLM score with confidence bumped to 0.9 exactly
when the LLM score differs from the lexicon score by more than
`llm_validate_threshold`, otherwise the lexicon score with its original
confidence. -/
theorem analyze_sentiment_escalation_characterization (scfg : SentimentCfg)
    (env : Env) (text : String) :
    (1/2 ≤ (analyze_vader env text).2 →
      SentimentAnalyzer.analyze_sentiment scfg env text =
        some ⟨(analyze_vader env text).1, (analyze_vader env text).2,
          (analyze_vader env text).1, false⟩ ∧
      ∀ env₂ : Env, env₂.polarity = env.polarity →
        SentimentAnalyzer.analyze_sentiment scfg env₂ text =
          SentimentAnalyzer.analyze_sentiment scfg env text) ∧
    ((analyze_vader env text).2 < 1/2 →
      ∀ l : ℚ, env.llmScore text = some l →
        SentimentAnalyzer.analyze_sentiment scfg env text =
          some (if scfg.llm_validate_threshold < |l - (analyze_vader env text).1|
            then ⟨l, 9/10, (analyze_vader env text).1, true⟩
            else ⟨(analyze_vader env text).1, (analyze_vader env text).2,
              (analyze_vader env text).1, false⟩)) := by
  constructor
  · intro h
    constructor
    · unfold SentimentAnalyzer.analyze_sentiment
      dsimp only
      rw [if_neg (not_lt.mpr h)]
    · intro env₂ hp
      have hv : analyze_vader env₂ text = analyze_vader env text := by
        unfold analyze_vader; rw [hp]
      unfold SentimentAnalyzer.analyze_sentiment
      dsimp only
      rw [hv, if_neg (not_lt.mpr h), if_neg (not_lt.mpr h)]
  · intro h l hl
    unfold SentimentAnalyzer.analyze_sentiment validate_with_llm
    dsimp only
    rw [if_pos h, hl]
    dsimp only
    by_cases hgt : |l - (analyze_vader env text).1| > scfg.llm_validate_threshold
    · rw [if_pos hgt, if_pos hgt]; rfl
    · rw [if_neg hgt, if_neg hgt]; rfl

/-- Witness for C5 (amended): a maximally polarized lexicon reading has
confidence 1, so the lexicon result is returned unchanged. -/
theorem analyze_sentiment_escalation_characterization_witness :
    1/2 ≤ (analyze_vader envConfident "a great course").2 ∧
    SentimentAnalyzer.analyze_sentiment ⟨1/5⟩ envConfident "a great course" =
      some ⟨(analyze_vader envConfident "a great course").1,
        (analyze_vader envConfident "a great course").2,
        (analyze_vader envConfident "a great course").1, false⟩ :=
  ⟨by norm_num [analyze_vader, envConfident, envAllOk],
   ((analyze_sentiment_escalation_characterization ⟨1/5⟩ envConfident
       "a great course").1
     (by norm_num [analyze_vader, envConfident, envAllOk])).1⟩

/-- C6: in the bot-owned path, given an analysis result `r` and a detector
verdict `needs`, the decision computed by `QueryHandler.analyze_sentiment`
is exactly `needs OR (r.score < sentiment_threshold AND r.confidence >
confidence_threshold)`, and on transfer the reason is CUSTOMER_REQUEST
when the detector fired and SENTIMENT_BASED otherwise, with both
thresholds read from the configuration. -/
theorem transfer_decision_formula (env : Env) (cfg : Cfg) (w : World)
    (sid cid msg : String) (total : Nat) (s : ChatSession) (r : AnalysisResult)
    (needs : Bool)
    (hs : lookupSession w.sessions sid = some s)
    (hb : s.current_agent = AgentType.BOT)
    (hmin : cfg.msg_analyzer.min_message_length ≤ total)
    (hp : env.analyzerPresent = true)
    (ha : MessageAnalyzer.analyze cfg.msg_analyzer cfg.sentiment_analyzer env msg
      (Int.ofNat total) (lastAnalyzedCount w.store sid cid) = some r)
    (hd : env.detectHuman msg
      (ChatHistory.format_history_for_prompt w.store cid sid 30) = some needs) :
    QueryHandler.analyze_sentiment env cfg w sid cid msg total =
      (Except.ok (some r,
        if needs || (decide (r.score < cfg.human_agent.sentiment_threshold) &&
            decide (r.confidence > cfg.human_agent.confidence_threshold)) then
          ⟨true, some "Transferring to human agent...",
            some (if needs then ToggleReason.CUSTOMER_REQUEST
                  else ToggleReason.SENTIMENT_BASED)⟩
        else ⟨false, none, none⟩), w) := by
  unfold QueryHandler.analyze_sentiment
  rw [hs]
  dsimp only
  rw [if_neg (by simp [hb]), if_neg (not_lt.mpr hmin), if_neg (by simp [hp]), ha]
  dsimp only
  rw [hd]
  dsimp only
  by_cases hT : (needs || (decide (r.score < cfg.human_agent.sentiment_threshold) &&
      decide (r.confidence > cfg.human_agent.confidence_threshold))) = true
  · rw [if_pos hT, if_pos hT]
  · rw [if_neg hT, if_neg hT]

/-- Witness for C6: with 100 stored turns, a short message takes the
"skipped" analysis path and the detector answers true, so the decision is
a CUSTOMER_REQUEST transfer. -/
theorem transfer_decision_formula_witness :
    lookupSession wBot100.sessions "s1" = some sessionBot ∧
    MessageAnalyzer.analyze cfg100.msg_analyzer cfg100.sentiment_analyzer
      { envAllOk with detectHuman := fun _ _ => some true } "hi" (Int.ofNat 100)
      (lastAnalyzedCount wBot100.store "s1" "c1") =
      some ⟨(7 : ℚ)/10, (1 : ℚ)/2, "skipped", false, [], none⟩ ∧
    QueryHandler.analyze_sentiment { envAllOk with detectHuman := fun _ _ => some true }
      cfg100 wBot100 "s1" "c1" "hi" 100 =
      (Except.ok (some ⟨(7 : ℚ)/10, (1 : ℚ)/2, "skipped", false, [], none⟩,
        if true || (decide (((7 : ℚ)/10 : ℚ) < cfg100.human_agent.sentiment_threshold) &&
            decide (((1 : ℚ)/2 : ℚ) > cfg100.human_agent.confidence_threshold)) then
          ⟨true, some "Transferring to human agent...",
            some (if true then ToggleReason.CUSTOMER_REQUEST
                  else ToggleReason.SENTIMENT_BASED)⟩
        else ⟨false, none, none⟩), wBot100) := by
  refine ⟨rfl, rfl, ?_⟩
  exact transfer_decision_formula _ cfg100 wBot100 "s1" "c1" "hi" 100 sessionBot
    ⟨(7 : ℚ)/10, (1 : ℚ)/2, "skipped", false, [], none⟩ true rfl rfl
    (by norm_num [cfg100]) rfl rfl rfl

theorem insertDescTs_length (t : ChatTurn) (l : List ChatTurn) :
    (insertDescTs t l).length = l.length + 1 := by
  induction l with
  | nil => rfl
  | cons u us ih =>
    unfold insertDescTs
    split
    · simp [ih]
    · simp

theorem sortDescByTs_length (l : List ChatTurn) :
    (sortDescByTs l).length = l.length := by
  unfold sortDescByTs
  induction l with
  | nil => rfl
  | cons x xs ih => simp [insertDescTs_length, ih]

/-- C9 is false as stated: an empty store and a store holding only a turn
of a different `(customer, session)` have identical (empty) turn sets for
`("c1","s1")`, yet `format_history_for_prompt` renders them differently,
because when the session-filtered query is empty the code re-queries with
no filter at all — so turns of other sessions do influence the output. -/
theorem format_history_fallback_leaks_other_sessions :
    filterSession [] "c1" "s1" =
      filterSession [⟨MessageRole.user, "hi", 0, "c2", "s2", none⟩] "c1" "s1" ∧
    ChatHistory.format_history_for_prompt [] "c1" "s1" 30 ≠
      ChatHistory.format_history_for_prompt
        [⟨MessageRole.user, "hi", 0, "c2", "s2", none⟩] "c1" "s1" 30 := by
  exact ⟨rfl, by decide⟩

/-- C9 (amended): `format_history_for_prompt` is a pure function of the
stored turns; as long as this `(customer_id, session_id)` has at least one
stored turn, the output depends only on that session's turns (most recent
`maxTurns`, chronological order, `Role: content` lines) — but when the
session has none, the fallback formats the newest turns of the whole
store regardless of session. -/
theorem format_history_depends_only_on_session_turns (dA dB : List ChatTurn)
    (cid sid : String) (n : Nat)
    (hne : filterSession dA cid sid ≠ [])
    (heq : filterSession dA cid sid = filterSession dB cid sid) :
    ChatHistory.format_history_for_prompt dA cid sid n =
      ChatHistory.format_history_for_prompt dB cid sid n := by
  unfold ChatHistory.format_history_for_prompt
  rw [← heq]
  by_cases hE : ((sortDescByTs (filterSession dA cid sid)).take n).isEmpty
  · have hn : n = 0 := by
      rcases List.take_eq_nil_iff.mp (List.isEmpty_iff.mp hE) with h0 | hnil
      · exact h0
      · exfalso
        apply hne
        have h1 : (filterSession dA cid sid).length = 0 := by
          rw [← sortDescByTs_length, hnil]
          rfl
        exact List.length_eq_zero.mp h1
    subst hn
    simp [hE]
  · simp [hE]

/-- The session's own stored turn used in the C9 witness. -/
def tIn : ChatTurn := ⟨.user, "hello", 0, "c1", "s1", none⟩

/-- A turn of a different customer and session used in the C9 witness. -/
def tOut : ChatTurn := ⟨.bot, "other", 1, "c2", "s2", none⟩

/-- Witness for C9 (amended): adding a foreign-session turn to a store
that already has a turn for this session does not change the output. -/
theorem format_history_depends_only_on_session_turns_witness :
    filterSession [tIn] "c1" "s1" ≠ [] ∧
    filterSession [tIn] "c1" "s1" = filterSession [tIn, tOut] "c1" "s1" ∧
    ChatHistory.format_history_for_prompt [tIn] "c1" "s1" 30 =
      ChatHistory.format_history_for_prompt [tIn, tOut] "c1" "s1" 30 :=
  ⟨by decide, by decide,
   format_history_depends_only_on_session_turns [tIn] [tIn, tOut] "c1" "s1" 30
     (by decide) (by decide)⟩

/-- C2 identifies a code bug: when `get_or_create_session` itself raises
(here: the session-store write fails), the top-level `except` clause of
`handle_query` evaluates `chat_history.add_turn`, but the local
`chat_history` was never bound, so the handler raises (Python
UnboundLocalError) instead of returning the apology — contradicting
"never propagates an exception, always returns a string". -/
theorem handle_query_propagates_on_session_lookup_failure :
    (QueryHandler.handle_query { envAllOk with sessionDbOk := false } cfg100 wBot
      "hello" "s1" "c1").1 = Except.error () := rfl

/-- Environment in which the human-request-detector LLM raises on every
call; everything else succeeds. -/
def envDetectRaises : Env := { envAllOk with detectHuman := fun _ _ => none }

/-- C1 is false as stated: when an internal LLM step raises — here the
human-request detector inside the sentiment step — the exception reaches
the top-level handler before the USER turn is appended, so zero USER
turns are persisted for the inbound message (the claim requires exactly
one); only the BOT apology is stored. -/
theorem handle_query_zero_user_turns_on_analysis_raise :
    ((QueryHandler.handle_query envDetectRaises cfg100 wBot100 "hi" "s1" "c1").2.store.drop
        100).map (fun t => (t.role, t.content)) = [(MessageRole.bot, errorMsg)] ∧
    ((QueryHandler.handle_query envDetectRaises cfg100 wBot100 "hi" "s1" "c1").2.store.filter
        (fun t => t.role == MessageRole.user)).length = 100 := by
  exact ⟨rfl, rfl⟩

/-- C1 (amended): provided session resolution, the turn count and the
sentiment/transfer analysis complete without raising (the validator LLM
and the human-request detector answer) and the durable insert succeeds,
`handle_query` persists exactly one USER turn for the inbound message —
never zero and never two — whichever branch then runs (human-mode
short-circuit, transfer, transfer failure, full response) and even when a
later step (transfer, reasoning, retrieval, response) raises; the USER
turn carries sentiment metadata exactly when the analysis step produced a
result and no metadata otherwise.  When a step before the USER-turn
append raises, zero USER turns are persisted (see the counterexample). -/
theorem handle_query_persists_user_turn_once (env : Env) (cfg : Cfg) (w : World)
    (q sid cid : String)
    (hS : env.sessionDbOk = true) (hC : env.countOk = true) (hI : env.insertOk = true)
    (hL : env.llmScore q ≠ none)
    (hD : ∀ h, env.detectHuman q h ≠ none) :
    ∃ rest, (QueryHandler.handle_query env cfg w q sid cid).2.store =
        w.store ++ mkTurn .user q w.clock cid sid
          (userMdOf (analysisOf env cfg w q sid cid)) :: rest ∧
      ∀ t ∈ rest, t.role ≠ MessageRole.user := by
  obtain ⟨s, w₁, hgoc, hst, hmem, hclk, hlook⟩ := get_or_create_session_ok env w sid cid hS
  by_cases hA : s.current_agent = AgentType.HUMAN
  · have hAna : analysisOf env cfg w q sid cid = none := by
      unfold analysisOf
      rw [hgoc]
      dsimp only
      rw [if_pos hA]
    rw [hAna]
    unfold QueryHandler.handle_query
    rw [hgoc]
    dsimp only
    rw [if_pos hA]
    refine ⟨[], ?_, by simp⟩
    dsimp only
    rw [add_turn_store, hI, hst, hclk]
    simp [userMdOf]
  · obtain ⟨a, d, hqh⟩ := qh_analyze_ok env cfg w₁ sid cid q (countDocs w₁.store sid)
      s hlook hA hL hD
    have hAna : analysisOf env cfg w q sid cid = a := by
      unfold analysisOf
      rw [hgoc]
      dsimp only
      rw [if_neg hA, hqh]
    rw [hAna]
    unfold QueryHandler.handle_query
    rw [hgoc]
    dsimp only
    rw [if_neg hA, if_pos hC, hqh]
    dsimp only
    obtain ⟨delta, hdelta, hroles⟩ := afterPersist_store env
      (add_turn w₁ sid cid .user q (userMdOf a) env.insertOk env.broadcastOk) sid cid d
    refine ⟨delta, ?_, ?_⟩
    · rw [hdelta, add_turn_store, hI, hst, hclk]
      simp
    · intro t ht
      rcases hroles t ht with h | h <;> rw [h] <;> intro hcon <;> cases hcon

/-- Witness for C1 (amended): a fully healthy environment on a fresh
bot-owned session persists the USER turn exactly once. -/
theorem handle_query_persists_user_turn_once_witness :
    envAllOk.sessionDbOk = true ∧ envAllOk.countOk = true ∧ envAllOk.insertOk = true ∧
    envAllOk.llmScore "hello" ≠ none ∧
    (∀ h, envAllOk.detectHuman "hello" h ≠ none) ∧
    ∃ rest, (QueryHandler.handle_query envAllOk cfg100 wBot "hello" "s1" "c1").2.store =
        wBot.store ++ mkTurn .user "hello" wBot.clock "c1" "s1"
          (userMdOf (analysisOf envAllOk cfg100 wBot "hello" "s1" "c1")) :: rest ∧
      ∀ t ∈ rest, t.role ≠ MessageRole.user :=
  ⟨rfl, rfl, rfl, by simp [envAllOk], fun h => by simp [envAllOk],
   handle_query_persists_user_turn_once envAllOk cfg100 wBot "hello" "s1" "c1"
     rfl rfl rfl (by simp [envAllOk]) (fun h => by simp [envAllOk])⟩
